import Mathlib

/-!
Verification of the StdpSongAbbott hybrid-automaton synapse model
(`StdpSongAbbott.h` / `StdpSongAbbott.cpp`, generated by PyPe9).

The C++ `double` arithmetic is idealised over `ℚ`; the transcendental
`exp` used by the transition bodies is abstracted as a function
parameter `expf : ℚ → ℚ`, so every statement below holds for any
interpretation of `exp`.  The state vector `y_` (six named entries,
indexed by `*_INDEX`) becomes a record with one field per entry;
regime pointers become indices into the regime arena (`regimes`),
which for this model has the single entry `SOLE_REGIME = 0`.
-/

/-- Parameters_ struct from StdpSongAbbott.h: the six real-valued model
parameters. -/
structure Parameters_ where
  tauLTP : ℚ
  aLTP : ℚ
  tauLTD : ℚ
  aLTD : ℚ
  wmax : ℚ
  wmin : ℚ
deriving DecidableEq

/-- NUM_REGIMES_ from the Regimes enum: the model has a single regime. -/
def NUM_REGIMES : Nat := 1

/-- SOLE_REGIME from the Regimes enum. -/
def SOLE_REGIME : Nat := 0

/-- State_ struct: the six continuous state variables of `y_` (named by
their `*_INDEX` enumerators), the simulation time `t` and the index of
the current regime (the `current_regime` pointer, as an index into the
instance's regime arena). -/
structure State_ where
  tlast_post : ℚ
  tlast_pre : ℚ
  deltaw : ℚ
  M : ℚ
  P : ℚ
  wsyn : ℚ
  t : ℚ
  current_regime : Nat
deriving DecidableEq

/-- The per-instance mutable data the transition machinery touches: the
state `S_`, the per-step event lists of `Buffers_`
(`presynaptic_spike_events` / `postsynaptic_spike_events`) and the
`active` latches of the two OnCondition objects of the sole regime. -/
structure Cell where
  S : State_
  presynaptic_spike_events : List ℚ
  postsynaptic_spike_events : List ℚ
  cond0_active : Bool
  cond1_active : Bool
deriving DecidableEq

/-- The four transitions owned by soleRegime_, in construction order:
`on_conditions = [soleOnCondition0, soleOnCondition1]`,
`on_events = [soleOnpresynaptic_spikeEvent, soleOnpostsynaptic_spikeEvent]`. -/
inductive TransitionId where
  | cond0
  | cond1
  | preEvent
  | postEvent
deriving DecidableEq

/-- soleOnCondition0::triggered: when the `active` latch is set, evaluate
the guard `wsyn > wmax`; otherwise false. -/
def soleOnCondition0_triggered (P_ : Parameters_) (c : Cell) (end_of_step_t : ℚ) : Bool :=
  if c.cond0_active then decide (c.S.wsyn > P_.wmax) else false

/-- soleOnCondition1::triggered: when the `active` latch is set, evaluate
the guard `wsyn < wmin`; otherwise false. -/
def soleOnCondition1_triggered (P_ : Parameters_) (c : Cell) (end_of_step_t : ℚ) : Bool :=
  if c.cond1_active then decide (c.S.wsyn < P_.wmin) else false

/-- soleOnCondition0::set_trigger: if not active, set
`active = wsyn < wmax`; an already-active latch is untouched. -/
def soleOnCondition0_set_trigger (P_ : Parameters_) (c : Cell) : Cell :=
  if !c.cond0_active then { c with cond0_active := decide (c.S.wsyn < P_.wmax) } else c

/-- soleOnCondition1::set_trigger: if not active, set
`active = wsyn > wmin`; an already-active latch is untouched. -/
def soleOnCondition1_set_trigger (P_ : Parameters_) (c : Cell) : Cell :=
  if !c.cond1_active then { c with cond1_active := decide (c.S.wsyn > P_.wmin) } else c

/-- soleOnpresynaptic_spikeEvent::received: `(bool)presynaptic_spike_events->size()`. -/
def soleOnpresynaptic_spikeEvent_received (c : Cell) : Bool :=
  !c.presynaptic_spike_events.isEmpty

/-- soleOnpostsynaptic_spikeEvent::received: `(bool)postsynaptic_spike_events->size()`. -/
def soleOnpostsynaptic_spikeEvent_received (c : Cell) : Bool :=
  !c.postsynaptic_spike_events.isEmpty

/-- time_occurred of every one of the four transitions returns
`end_of_step_t` (events occur at end of step; the condition triggers do
not depend solely on `t`, so the generated code also returns the end of
the window). -/
def time_occurred (tid : TransitionId) (end_of_step_t : ℚ) : ℚ :=
  match tid with
  | .cond0 => end_of_step_t
  | .cond1 => end_of_step_t
  | .preEvent => end_of_step_t
  | .postEvent => end_of_step_t

/-- Transition_::deactivate: `OnCondition_::deactivate` clears the
`active` latch; `OnEvent_::deactivate` is a no-op. -/
def Transition_deactivate (tid : TransitionId) (c : Cell) : Cell :=
  match tid with
  | .cond0 => { c with cond0_active := false }
  | .cond1 => { c with cond1_active := false }
  | .preEvent => c
  | .postEvent => c

/-- Transition_::get_target_regime: all four transitions of this model
were constructed with target index SOLE_REGIME. -/
def Transition_get_target_regime (tid : TransitionId) : Nat :=
  match tid with
  | .cond0 => SOLE_REGIME
  | .cond1 => SOLE_REGIME
  | .preEvent => SOLE_REGIME
  | .postEvent => SOLE_REGIME

/-- soleOnpresynaptic_spikeEvent::body: pops the front of the
presynaptic event list, then performs the state assignments in source
order.  The C++ locals are references into `y_`, so the final
`wsyn = deltaw + wsyn` reads the deltaw just assigned and the old wsyn.
Returns true in the source (discontinuous change). -/
def soleOnpresynaptic_spikeEvent_body (expf : ℚ → ℚ) (P_ : Parameters_) (c : Cell) : Cell :=
  let t := c.S.t
  let tlast_post := c.S.tlast_post
  let tlast_pre := c.S.tlast_pre
  let M := c.S.M
  let P := c.S.P
  let wsyn := c.S.wsyn
  let Pnew := P * expf ((-t + tlast_pre) / P_.tauLTP) + P_.aLTP
  let tlast_preNew := t
  let deltawNew := M * P_.wmax * expf ((-t + tlast_post) / P_.tauLTD)
  let wsynNew := deltawNew + wsyn
  { c with
    S := { c.S with P := Pnew, tlast_pre := tlast_preNew,
                    deltaw := deltawNew, wsyn := wsynNew },
    presynaptic_spike_events := c.presynaptic_spike_events.tail }

/-- soleOnpostsynaptic_spikeEvent::body: pops the front of the
postsynaptic event list, then performs the state assignments in source
order; `deltaw = P*wmax*exp((-t + tlast_pre)/tauLTP)` reads the
unchanged `P` and `tlast_pre`, and `wsyn = deltaw + wsyn` reads the
deltaw just assigned.  Returns true in the source. -/
def soleOnpostsynaptic_spikeEvent_body (expf : ℚ → ℚ) (P_ : Parameters_) (c : Cell) : Cell :=
  let t := c.S.t
  let tlast_post := c.S.tlast_post
  let tlast_pre := c.S.tlast_pre
  let M := c.S.M
  let P := c.S.P
  let wsyn := c.S.wsyn
  let Mnew := M * expf ((-t + tlast_post) / P_.tauLTD) - P_.aLTD
  let tlast_postNew := t
  let deltawNew := P * P_.wmax * expf ((-t + tlast_pre) / P_.tauLTP)
  let wsynNew := deltawNew + wsyn
  { c with
    S := { c.S with M := Mnew, tlast_post := tlast_postNew,
                    deltaw := deltawNew, wsyn := wsynNew },
    postsynaptic_spike_events := c.postsynaptic_spike_events.tail }

/-- soleOnCondition0::body: clamp `wsyn = wmax`. -/
def soleOnCondition0_body (P_ : Parameters_) (c : Cell) : Cell :=
  { c with S := { c.S with wsyn := P_.wmax } }

/-- soleOnCondition1::body: clamp `wsyn = wmin`. -/
def soleOnCondition1_body (P_ : Parameters_) (c : Cell) : Cell :=
  { c with S := { c.S with wsyn := P_.wmin } }

/-- Dispatch of Transition_::body over the four transitions (each body
returns true in the source, meaning a discontinuous state change). -/
def Transition_body (expf : ℚ → ℚ) (P_ : Parameters_) (tid : TransitionId) (c : Cell) : Cell :=
  match tid with
  | .cond0 => soleOnCondition0_body P_ c
  | .cond1 => soleOnCondition1_body P_ c
  | .preEvent => soleOnpresynaptic_spikeEvent_body expf P_ c
  | .postEvent => soleOnpostsynaptic_spikeEvent_body expf P_ c

/-- The `occurred` vector built by Regime_::transition: triggered
OnConditions in declaration order, then received OnEvents in
declaration order. -/
def occurredList (P_ : Parameters_) (c : Cell) (end_of_step_t : ℚ) : List TransitionId :=
  ((if soleOnCondition0_triggered P_ c end_of_step_t then [TransitionId.cond0] else []) ++
   (if soleOnCondition1_triggered P_ c end_of_step_t then [TransitionId.cond1] else [])) ++
  ((if soleOnpresynaptic_spikeEvent_received c then [TransitionId.preEvent] else []) ++
   (if soleOnpostsynaptic_spikeEvent_received c then [TransitionId.postEvent] else []))

/-- Helper for minElementIdx: scan with the current best value, its
index, and the index of the next element; `std::min_element` updates
only on a strictly smaller element, keeping the first minimum. -/
def minElementIdxAux : List ℚ → ℚ → Nat → Nat → Nat
  | [], _, bestIdx, _ => bestIdx
  | x :: rest, best, bestIdx, cur =>
    if x < best then minElementIdxAux rest x cur (cur + 1)
    else minElementIdxAux rest best bestIdx (cur + 1)

/-- Index of the first minimum of a list, as computed by
`std::min_element(times.begin(), times.end()) - times.begin()`. -/
def minElementIdx : List ℚ → Nat
  | [] => 0
  | x :: rest => minElementIdxAux rest x 0 1

/-- The selection block of Regime_::transition: NULL when `occurred` is
empty, its only element when it has one, and otherwise the element at
the index of the first minimum of the time_occurred values. -/
def resolveTransitionChoice (occurred : List TransitionId) (end_of_step_t : ℚ) :
    Option TransitionId :=
  if occurred.length = 0 then none
  else if occurred.length = 1 then occurred.head?
  else occurred.get? (minElementIdx (occurred.map (fun tid => time_occurred tid end_of_step_t)))

/-- Regime_::transition: build the `occurred` vector, select the
transition with the earliest time_occurred (first minimum on ties),
call deactivate() on it, and return it; NULL when nothing occurred. -/
def Regime_transition (P_ : Parameters_) (c : Cell) (end_of_step_t : ℚ) :
    Option TransitionId × Cell :=
  match resolveTransitionChoice (occurredList P_ c end_of_step_t) end_of_step_t with
  | none => (none, c)
  | some tid => (some tid, Transition_deactivate tid c)

/-- Regime_::set_triggers: call set_trigger on every OnCondition of the
regime, in declaration order. -/
def Regime_set_triggers (P_ : Parameters_) (c : Cell) : Cell :=
  soleOnCondition1_set_trigger P_ (soleOnCondition0_set_trigger P_ c)

/-- resolve_earliest as the specification words it: among the occurred
candidates, the first (in the regime's unified occurrence list) whose
occurrence time is less than or equal to every other candidate's. -/
def resolveEarliestSpec (P_ : Parameters_) (c : Cell) (end_of_step_t : ℚ) :
    Option TransitionId :=
  (occurredList P_ c end_of_step_t).find? (fun tid =>
    (occurredList P_ c end_of_step_t).all (fun u =>
      decide (time_occurred tid end_of_step_t ≤ time_occurred u end_of_step_t)))

/-- MAX_SIMULTANEOUS_TRANSITIONS from StdpSongAbbott.h. -/
def MAX_SIMULTANEOUS_TRANSITIONS : Nat := 1000

/-- The ExceededMaximumSimultaneousTransitions exception: carries the
model name, the number of transitions and the time, as constructed at
the throw site in update. -/
structure ExceededMaximumSimultaneousTransitions where
  model : String
  num_transitions : Nat
  t : ℚ
deriving DecidableEq

/-- One transition as resolved inside the update loop, with the regime
machinery abstracted away: its occurrence time and the combined effect
on the machine state of body(), the regime switch and set_triggers()
(plus the solver reinitialisation, which has no model-visible state). -/
structure ResolvedTransition (σ : Type) where
  t_occ : ℚ
  next : σ → σ

/-- Outcome of the per-step transition-resolution loop: fuel ran out
(the loop was still going), the loop exited because transition()
returned NULL, or the ceiling exception was thrown.  The machine state
is carried in every case (the object's members survive the throw). -/
inductive UpdateLoopResult (σ : Type) where
  | outOfFuel : σ → ℚ → Nat → UpdateLoopResult σ
  | finished : σ → ℚ → UpdateLoopResult σ
  | raised : σ → ExceededMaximumSimultaneousTransitions → UpdateLoopResult σ
deriving DecidableEq

/-- The transition-resolution while-loop of update, over an abstract
machine state `σ`.  `resolve` models `current_regime->transition(...)`:
it returns the state after the resolution call (deactivate happens
inside it) together with the resolved transition, or none for NULL.
Per iteration: read `t = time_occurred`; if `t` equals the recorded
`S_.t`, increment the simultaneous-transition counter and throw once it
exceeds the ceiling; otherwise record `t` and reset the counter; then
run the transition's effect and loop. -/
def transitionResolutionLoop {σ : Type} (resolve : σ → Option (σ × ResolvedTransition σ)) :
    Nat → σ → ℚ → Nat → UpdateLoopResult σ
  | 0, s, S_t, count => .outOfFuel s S_t count
  | fuel + 1, s, S_t, count =>
    match resolve s with
    | none => .finished s S_t
    | some (s₁, tr) =>
      let t := tr.t_occ
      if t = S_t then
        if MAX_SIMULTANEOUS_TRANSITIONS < count + 1 then
          .raised s₁ ⟨"StdpSongAbbott", count + 1, t⟩
        else
          transitionResolutionLoop resolve fuel (tr.next s₁) S_t (count + 1)
      else
        transitionResolutionLoop resolve fuel (tr.next s₁) t 0

/-- A regime with one self-loop transition that always fires at the
fixed timestamp `T`; the machine state counts body executions
(each firing increments it). -/
def alwaysSelfLoop (T : ℚ) : Nat → Option (Nat × ResolvedTransition Nat) :=
  fun n => some (n, ⟨T, fun m => m + 1⟩)

/-- body(), the regime switch `S_.current_regime = target`, and
set_triggers() on the new regime, as executed by the update loop after
the simultaneity bookkeeping (soleRegime_::init_solver() is empty). -/
def afterTransition (expf : ℚ → ℚ) (P_ : Parameters_) (tid : TransitionId) (c : Cell) : Cell :=
  let c₁ := Transition_body expf P_ tid c
  let c₂ := { c₁ with S := { c₁.S with current_regime := Transition_get_target_regime tid } }
  Regime_set_triggers P_ c₂

/-- Outcome of the concrete per-step resolution loop on a Cell. -/
inductive CellLoopResult where
  | outOfFuel : Cell → Nat → CellLoopResult
  | finished : Cell → CellLoopResult
  | raised : Cell → ExceededMaximumSimultaneousTransitions → CellLoopResult
deriving DecidableEq

/-- The transition-resolution while-loop of update instantiated on the
concrete model: Regime_::transition resolves (and deactivates), the
simultaneity counter is checked against the recorded `S_.t`, `S_.t`
advances to the occurrence time when it differs, and the transition's
body, regime switch and set_triggers run. -/
def cellTransitionLoop (expf : ℚ → ℚ) (P_ : Parameters_) (end_of_step_t : ℚ) :
    Nat → Cell → Nat → CellLoopResult
  | 0, c, count => .outOfFuel c count
  | fuel + 1, c, count =>
    match Regime_transition P_ c end_of_step_t with
    | (none, _) => .finished c
    | (some tid, c₁) =>
      let t := time_occurred tid end_of_step_t
      if t = c₁.S.t then
        if MAX_SIMULTANEOUS_TRANSITIONS < count + 1 then
          .raised c₁ ⟨"StdpSongAbbott", count + 1, t⟩
        else
          cellTransitionLoop expf P_ end_of_step_t fuel
            (afterTransition expf P_ tid c₁) (count + 1)
      else
        cellTransitionLoop expf P_ end_of_step_t fuel
          (afterTransition expf P_ tid { c₁ with S := { c₁.S with t := t } }) 0

/-- One lag iteration of StdpSongAbbott::update: stamp
`S_.t = origin.get_ms()`, run the (empty) ODE step of the sole regime,
refresh the per-lag event lists, set
`end_of_step_t = origin.get_ms() + lag * dt`, run the
transition-resolution loop, then stamp `S_.t = end_of_step_t` and call
set_triggers once more.  (Data logging has no model-visible state.) -/
def update_lag (expf : ℚ → ℚ) (P_ : Parameters_) (origin_ms dt : ℚ) (lag : Nat)
    (pre post : List ℚ) (fuel : Nat) (c : Cell) : CellLoopResult :=
  let c₁ := { c with S := { c.S with t := origin_ms } }
  let c₂ := { c₁ with presynaptic_spike_events := pre, postsynaptic_spike_events := post }
  let end_of_step_t := origin_ms + (lag : ℚ) * dt
  match cellTransitionLoop expf P_ end_of_step_t fuel c₂ 0 with
  | .finished c' =>
    let c'' := { c' with S := { c'.S with t := end_of_step_t } }
    .finished (Regime_set_triggers P_ c'')
  | r => r

/-- A guard observation of soleOnCondition0 during the simulation: either
a resolution-loop check of triggered() (followed by a firing when it is
true) or a set_triggers() evaluation; each carries the value wsyn has at
that moment. -/
inductive CondObservation where
  | resolveCheck : ℚ → CondObservation
  | setTriggerCheck : ℚ → CondObservation
deriving DecidableEq

/-- The wsyn value an observation sees. -/
def obsWsyn : CondObservation → ℚ
  | .resolveCheck w => w
  | .setTriggerCheck w => w

/-- A cell holding a given wsyn and soleOnCondition0 latch (the only
data soleOnCondition0's triggered / set_trigger / deactivate read or
write); all other fields are immaterial to those functions. -/
def cellWith (w : ℚ) (a : Bool) : Cell :=
  { S := { tlast_post := 0, tlast_pre := 0, deltaw := 0, M := 0, P := 0,
           wsyn := w, t := 0, current_regime := SOLE_REGIME },
    presynaptic_spike_events := [], postsynaptic_spike_events := [],
    cond0_active := a, cond1_active := false }

/-- Evolution of soleOnCondition0's `active` latch and firing count over
a sequence of observations: a resolution check fires (and deactivates)
exactly when triggered() is true; a set_triggers evaluation runs
set_trigger().  Returns the final latch and the number of firings. -/
def cond0Trace (P_ : Parameters_) : Bool → List CondObservation → Bool × Nat
  | a, [] => (a, 0)
  | a, .resolveCheck w :: rest =>
    if soleOnCondition0_triggered P_ (cellWith w a) 0 then
      let r := cond0Trace P_ ((Transition_deactivate .cond0 (cellWith w a)).cond0_active) rest
      (r.1, r.2 + 1)
    else
      cond0Trace P_ a rest
  | a, .setTriggerCheck w :: rest =>
    cond0Trace P_ ((soleOnCondition0_set_trigger P_ (cellWith w a)).cond0_active) rest

/-- Repeatedly fire soleOnpresynaptic_spikeEvent while received() is
true (as the resolution loop does once conditions are quiet), recording
the value body() consumes from the front of the queue each time. -/
def drainPresynaptic (expf : ℚ → ℚ) (P_ : Parameters_) : Nat → Cell → List ℚ × Cell
  | 0, c => ([], c)
  | fuel + 1, c =>
    if soleOnpresynaptic_spikeEvent_received c then
      let w := c.presynaptic_spike_events.headI
      let c' := soleOnpresynaptic_spikeEvent_body expf P_ c
      let r := drainPresynaptic expf P_ fuel c'
      (w :: r.1, r.2)
    else ([], c)

/-- A value stored under a key of the property dictionary: a well-typed
double, a well-typed long, or a value on which the typed access fails. -/
inductive DictValue where
  | num : ℚ → DictValue
  | int : Int → DictValue
  | bad : DictValue

/-- Modelled from the spec: the flat key-value property dictionary
(NEST's DictionaryDatum, an out-of-scope external collaborator).  Only
lookup is needed by the setters under verification. -/
structure Dict where
  find : String → Option DictValue

/-- Modelled from the spec: `updateValue of double` of the external
dictionary layer — an absent key leaves the current value, a well-typed
entry replaces it, and any other entry makes the validation fail
(surfaced to the caller as an error where the C++ throws). -/
def updateValue_double (d : Dict) (key : String) (cur : ℚ) : Except Unit ℚ :=
  match d.find key with
  | none => .ok cur
  | some (.num v) => .ok v
  | some _ => .error ()

/-- Modelled from the spec: `updateValue of long` of the external
dictionary layer, analogous to the double version. -/
def updateValue_long (d : Dict) (key : String) (cur : Int) : Except Unit Int :=
  match d.find key with
  | none => .ok cur
  | some (.int v) => .ok v
  | some _ => .error ()

/-- The CURRENT_REGIME reserved dictionary key. -/
def CURRENT_REGIME : String := "__regime__"

/-- Parameters_::set: update the six parameters from the dictionary in
source order; the first failing access aborts the whole set. -/
def Parameters_set (d : Dict) (p : Parameters_) : Except Unit Parameters_ :=
  Except.bind (updateValue_double d "tauLTP" p.tauLTP) fun tauLTP =>
  Except.bind (updateValue_double d "aLTP" p.aLTP) fun aLTP =>
  Except.bind (updateValue_double d "tauLTD" p.tauLTD) fun tauLTD =>
  Except.bind (updateValue_double d "aLTD" p.aLTD) fun aLTD =>
  Except.bind (updateValue_double d "wmax" p.wmax) fun wmax =>
  Except.bind (updateValue_double d "wmin" p.wmin) fun wmin =>
  Except.ok { tauLTP := tauLTP, aLTP := aLTP, tauLTD := tauLTD,
              aLTD := aLTD, wmax := wmax, wmin := wmin }

/-- State_::set: update the six state variables from the dictionary in
source order, check the supplied regime is a member of the instance's
regime arena (the `assert(found_regime)`, modelled as a failure), and
install it as the current regime.  The Parameters_ argument is unused,
as in the source. -/
def State_set (d : Dict) (ptmp : Parameters_) (regime : Nat) (s : State_) :
    Except Unit State_ :=
  Except.bind (updateValue_double d "tlast_post" s.tlast_post) fun tlast_post =>
  Except.bind (updateValue_double d "tlast_pre" s.tlast_pre) fun tlast_pre =>
  Except.bind (updateValue_double d "deltaw" s.deltaw) fun deltaw =>
  Except.bind (updateValue_double d "M" s.M) fun M =>
  Except.bind (updateValue_double d "P" s.P) fun P =>
  Except.bind (updateValue_double d "wsyn" s.wsyn) fun wsyn =>
  if regime < NUM_REGIMES then
    Except.ok { tlast_post := tlast_post, tlast_pre := tlast_pre, deltaw := deltaw,
                M := M, P := P, wsyn := wsyn, t := s.t, current_regime := regime }
  else
    Except.error ()

/-- State_::operator=: copy the six y_ entries, the current regime and
the time from the source state; no validation of any kind. -/
def State_assign (dst src : State_) : State_ :=
  { tlast_post := src.tlast_post, tlast_pre := src.tlast_pre, deltaw := src.deltaw,
    M := src.M, P := src.P, wsyn := src.wsyn,
    current_regime := src.current_regime, t := src.t }

/-- The regime-index sanitisation at the top of set_status: a value
outside [0, NUM_REGIMES_) is silently replaced by 0. -/
def sanitizeRegimeIndex (regime_index : Int) : Int :=
  if regime_index < 0 ∨ (NUM_REGIMES : Int) ≤ regime_index then 0 else regime_index

/-- StdpSongAbbott::set_status: read and sanitise the regime index
(`init_regime_index` is the value of the uninitialised local when the
key is absent), validate the dictionary into temporary copies `ptmp`
and `stmp`, run the parent-class set_status (`arch`, an external
collaborator that may fail), and only then commit both temporaries.
A successful run returns the committed pair; an error leaves the
members untouched (see set_status_committed). -/
def set_status (d : Dict) (init_regime_index : Int) (arch : Except Unit Unit)
    (P_ : Parameters_) (S_ : State_) : Except Unit (Parameters_ × State_) :=
  Except.bind (updateValue_long d CURRENT_REGIME init_regime_index) fun regime_index =>
  let regime : Nat := (sanitizeRegimeIndex regime_index).toNat
  Except.bind (Parameters_set d P_) fun ptmp =>
  Except.bind (State_set d ptmp regime S_) fun stmp =>
  Except.bind arch fun _ =>
  Except.ok (ptmp, stmp)

/-- The parameter record and state the instance holds after a
set_status call: the temporaries on success, the untouched originals
when any part of the validation failed (the exception propagates past
the commit). -/
def set_status_committed (d : Dict) (init_regime_index : Int) (arch : Except Unit Unit)
    (P_ : Parameters_) (S_ : State_) : Parameters_ × State_ :=
  match set_status d init_regime_index arch P_ S_ with
  | .ok r => r
  | .error _ => (P_, S_)

/-- Parameters_ default constructor: every parameter zero. -/
def params0 : Parameters_ :=
  { tauLTP := 0, aLTP := 0, tauLTD := 0, aLTD := 0, wmax := 0, wmin := 0 }

/-- A state with zeroed variables in the sole regime. -/
def state0 : State_ :=
  { tlast_post := 0, tlast_pre := 0, deltaw := 0, M := 0, P := 0, wsyn := 0,
    t := 0, current_regime := SOLE_REGIME }

/-- A cell with zeroed state, empty event queues and unarmed latches. -/
def cell0 : Cell :=
  { S := state0, presynaptic_spike_events := [], postsynaptic_spike_events := [],
    cond0_active := false, cond1_active := false }

/-- Concrete parameters for the STDP-increment evaluation. -/
def paramsExA : Parameters_ :=
  { tauLTP := 1, aLTP := 0, tauLTD := 1, aLTD := 0, wmax := 2, wmin := 0 }

/-- Concrete cell for the STDP-increment evaluation: a postsynaptic
spike queued, `t = 5` and `tlast_pre = 0 = t - 5`. -/
def cellExA : Cell :=
  { S := { tlast_post := 0, tlast_pre := 0, deltaw := 0, M := 0, P := 3, wsyn := 7,
           t := 5, current_regime := SOLE_REGIME },
    presynaptic_spike_events := [], postsynaptic_spike_events := [1],
    cond0_active := false, cond1_active := false }

/-- Concrete cell with three presynaptic events queued in one step. -/
def cellExB : Cell :=
  { cell0 with presynaptic_spike_events := [1, 2, 3] }

/-- Concrete cell with soleOnCondition0 armed, its guard true
(`wsyn = 1 > 0 = wmax`), and a presynaptic event queued, so the
resolution has two simultaneous candidates. -/
def cellExC : Cell :=
  { S := { state0 with wsyn := 1 },
    presynaptic_spike_events := [4], postsynaptic_spike_events := [],
    cond0_active := true, cond1_active := false }

/-- Guard observations all seeing wsyn = 1 (guard true for wmax = 0). -/
def obsExC : List CondObservation :=
  [CondObservation.resolveCheck 1, CondObservation.setTriggerCheck 1,
   CondObservation.resolveCheck 1, CondObservation.setTriggerCheck 1]

/-- A dictionary carrying one valid parameter value and one value on
which validation fails. -/
def dictBad : Dict :=
  { find := fun k =>
      if k = "tauLTP" then some (DictValue.num 1)
      else if k = "aLTD" then some DictValue.bad
      else none }

/-- A dictionary whose only entry is an out-of-range regime identity. -/
def dictRegime5 : Dict :=
  { find := fun k =>
      if k = CURRENT_REGIME then some (DictValue.int 5) else none }

/-- A state carrying a regime index outside the instance's regime set. -/
def stateBadRegime : State_ :=
  { state0 with current_regime := 5 }

/-- The empty dictionary. -/
def dictEmpty : Dict := { find := fun _ => none }

/-! Theorems. -/

@[simp]
theorem except_bind_ok {ε α β : Type} (a : α) (f : α → Except ε β) :
    Except.bind (Except.ok a) f = f a := rfl

@[simp]
theorem except_bind_error {ε α β : Type} (e : ε) (f : α → Except ε β) :
    Except.bind (Except.error e) f = Except.error e := rfl

/-- C10: when a postsynaptic-spike event fires at time t with
tlast_pre = t - 5, the transition body sets deltaw to
P * wmax * exp(-5 / tauLTP) using the pre-firing values of P and
tlast_pre, and the post-firing wsyn equals the pre-firing wsyn plus
that deltaw. -/
theorem postsynaptic_body_stdp_increment (expf : ℚ → ℚ) (P_ : Parameters_) (c : Cell)
    (hq : c.postsynaptic_spike_events ≠ [])
    (hpre : c.S.tlast_pre = c.S.t - 5) :
    (soleOnpostsynaptic_spikeEvent_body expf P_ c).S.deltaw
        = c.S.P * P_.wmax * expf (-5 / P_.tauLTP) ∧
    (soleOnpostsynaptic_spikeEvent_body expf P_ c).S.wsyn
        = c.S.wsyn + c.S.P * P_.wmax * expf (-5 / P_.tauLTP) := by
  have harg : (-c.S.t + c.S.tlast_pre) / P_.tauLTP = -5 / P_.tauLTP := by
    rw [hpre]; ring_nf
  constructor
  · simp only [soleOnpostsynaptic_spikeEvent_body, harg]
  · simp only [soleOnpostsynaptic_spikeEvent_body, harg]
    ring

/-- Witness for C10 at a concrete input (expf instantiated with the
identity): deltaw = 3 * 2 * (-5 / 1) = -30 and wsyn = 7 - 30 = -23. -/
theorem postsynaptic_body_stdp_increment_witness :
    (soleOnpostsynaptic_spikeEvent_body (fun x => x) paramsExA cellExA).S.deltaw = -30 ∧
    (soleOnpostsynaptic_spikeEvent_body (fun x => x) paramsExA cellExA).S.wsyn = -23 := by
  have h := postsynaptic_body_stdp_increment (fun x => x) paramsExA cellExA
      (by norm_num [cellExA]) (by norm_num [cellExA])
  exact ⟨h.1.trans (by norm_num [cellExA, paramsExA]),
         h.2.trans (by norm_num [cellExA, paramsExA])⟩

/-- C4 counterexample: it is not the case that an unarmed
soleOnCondition0 becomes armed by set_triggers whenever its guard
`wsyn > wmax` is false; at the boundary wsyn = wmax (here both 0) the
guard is false yet the latch stays unarmed, because set_trigger arms
with the strict comparison `wsyn < wmax`. -/
theorem set_triggers_guard_boundary_counterexample :
    ¬ (∀ (P_ : Parameters_) (c : Cell), c.cond0_active = false →
        ((Regime_set_triggers P_ c).cond0_active = true ↔ ¬ (c.S.wsyn > P_.wmax))) := by
  intro h
  have hfalse := (h params0 cell0 rfl).mpr (by norm_num [cell0, state0, params0])
  have hval : (Regime_set_triggers params0 cell0).cond0_active = false := by
    norm_num [Regime_set_triggers, soleOnCondition0_set_trigger,
              soleOnCondition1_set_trigger, cell0, state0, params0]
  rw [hval] at hfalse
  exact Bool.false_ne_true hfalse

/-- C4 amended: after Regime_::set_triggers, armed latches are left
unchanged, and an unarmed latch becomes armed if and only if the strict
reverse of its guard holds — `wsyn < wmax` for soleOnCondition0 and
`wsyn > wmin` for soleOnCondition1 (so at the boundaries wsyn = wmax or
wsyn = wmin the guard is false but the latch is not armed); set_triggers
changes nothing except the two latches. -/
theorem set_triggers_arms_iff_strict_reverse (P_ : Parameters_) (c : Cell) :
    (c.cond0_active = true → (Regime_set_triggers P_ c).cond0_active = true) ∧
    (c.cond0_active = false →
      ((Regime_set_triggers P_ c).cond0_active = true ↔ c.S.wsyn < P_.wmax)) ∧
    (c.cond1_active = true → (Regime_set_triggers P_ c).cond1_active = true) ∧
    (c.cond1_active = false →
      ((Regime_set_triggers P_ c).cond1_active = true ↔ P_.wmin < c.S.wsyn)) ∧
    (Regime_set_triggers P_ c).S = c.S ∧
    (Regime_set_triggers P_ c).presynaptic_spike_events = c.presynaptic_spike_events ∧
    (Regime_set_triggers P_ c).postsynaptic_spike_events = c.postsynaptic_spike_events := by
  unfold Regime_set_triggers soleOnCondition0_set_trigger soleOnCondition1_set_trigger
  rcases h0 : c.cond0_active <;> rcases h1 : c.cond1_active <;> simp [h0, h1]

/-- Witness for C4's amended statement: from an unarmed latch with
wsyn = 0 < 2 = wmax, set_triggers arms soleOnCondition0. -/
theorem set_triggers_arms_iff_strict_reverse_witness :
    (Regime_set_triggers paramsExA cell0).cond0_active = true :=
  ((set_triggers_arms_iff_strict_reverse paramsExA cell0).2.1 rfl).mpr (by decide)

/-- C9 counterexample: State_::operator= is a public mutation path that
installs a regime index outside the instance's regime set (5, while the
only valid index is 0) without any validation or failure, refuting the
claim that the replace operation used for copy validates the target
regime and that no unvalidated mutation path is exposed. -/
theorem state_assign_accepts_invalid_regime :
    (State_assign state0 stateBadRegime).current_regime = 5 ∧ ¬ (5 < NUM_REGIMES) := by
  decide

/-- C9 amended: State_::set (the dictionary-restore path) checks that
the supplied regime is a member of the instance's regime set and fails
otherwise — via `assert(found_regime)`, there is no InvalidRegime
condition in the code — and on success installs exactly that regime;
State_::operator= (the copy path) is a second public mutation path that
copies the six state variables, the regime and the time verbatim with
no validation at all. -/
theorem state_set_validates_regime_assign_does_not
    (d : Dict) (p : Parameters_) (r : Nat) (s : State_) :
    (∀ s', State_set d p r s = .ok s' → r < NUM_REGIMES ∧ s'.current_regime = r) ∧
    (¬ r < NUM_REGIMES → State_set d p r s = .error ()) ∧
    (∀ dst src : State_, State_assign dst src = src) := by
  refine ⟨?_, ?_, fun dst src => rfl⟩
  · intro s' h
    unfold State_set at h
    rcases h1 : updateValue_double d "tlast_post" s.tlast_post with _ | v1 <;> simp [h1] at h
    rcases h2 : updateValue_double d "tlast_pre" s.tlast_pre with _ | v2 <;> simp [h2] at h
    rcases h3 : updateValue_double d "deltaw" s.deltaw with _ | v3 <;> simp [h3] at h
    rcases h4 : updateValue_double d "M" s.M with _ | v4 <;> simp [h4] at h
    rcases h5 : updateValue_double d "P" s.P with _ | v5 <;> simp [h5] at h
    rcases h6 : updateValue_double d "wsyn" s.wsyn with _ | v6 <;> simp [h6] at h
    by_cases hr : r < NUM_REGIMES
    · rw [if_pos hr] at h
      simp only [Except.ok.injEq] at h
      exact ⟨hr, by rw [← h]⟩
    · rw [if_neg hr] at h
      exact absurd h (by simp)
  · intro hr
    unfold State_set
    rcases h1 : updateValue_double d "tlast_post" s.tlast_post with _ | v1 <;> simp [h1]
    rcases h2 : updateValue_double d "tlast_pre" s.tlast_pre with _ | v2 <;> simp [h2]
    rcases h3 : updateValue_double d "deltaw" s.deltaw with _ | v3 <;> simp [h3]
    rcases h4 : updateValue_double d "M" s.M with _ | v4 <;> simp [h4]
    rcases h5 : updateValue_double d "P" s.P with _ | v5 <;> simp [h5]
    rcases h6 : updateValue_double d "wsyn" s.wsyn with _ | v6 <;> simp [h6]
    exact Nat.le_of_not_lt hr

/-- Witness for C9's amended statement: restoring with regime 5 into a
single-regime instance fails. -/
theorem state_set_validates_regime_witness :
    State_set dictEmpty params0 5 state0 = .error () :=
  (state_set_validates_regime_assign_does_not dictEmpty params0 5 state0).2.1 (by decide)

/-- Helper: with the latch unarmed and every observed wsyn above wmax
(guard true), soleOnCondition0 never rearms and never fires. -/
theorem cond0Trace_inactive (P_ : Parameters_) :
    ∀ (obs : List CondObservation), (∀ o ∈ obs, P_.wmax < obsWsyn o) →
      cond0Trace P_ false obs = (false, 0) := by
  intro obs
  induction obs with
  | nil => intro hg; rfl
  | cons o rest ih =>
    intro hg
    have hrest : ∀ o' ∈ rest, P_.wmax < obsWsyn o' :=
      fun o' h' => hg o' (List.mem_cons_of_mem _ h')
    have ho := hg o (List.mem_cons_self _ _)
    cases o with
    | resolveCheck w =>
      have htrig : soleOnCondition0_triggered P_ (cellWith w false) 0 = false := by
        simp [soleOnCondition0_triggered, cellWith]
      simp [cond0Trace, htrig, ih hrest]
    | setTriggerCheck w =>
      have harm : (soleOnCondition0_set_trigger P_ (cellWith w false)).cond0_active = false := by
        simp only [obsWsyn] at ho
        simp [soleOnCondition0_set_trigger, cellWith]
        exact le_of_lt ho
      simp [cond0Trace, harm, ih hrest]

/-- Helper: from any latch state, with every observed wsyn above wmax,
soleOnCondition0 fires at most once over the whole observation list. -/
theorem cond0Trace_le_one (P_ : Parameters_) :
    ∀ (obs : List CondObservation) (a : Bool), (∀ o ∈ obs, P_.wmax < obsWsyn o) →
      (cond0Trace P_ a obs).2 ≤ 1 := by
  intro obs
  induction obs with
  | nil => intro a hg; simp [cond0Trace]
  | cons o rest ih =>
    intro a hg
    have hrest : ∀ o' ∈ rest, P_.wmax < obsWsyn o' :=
      fun o' h' => hg o' (List.mem_cons_of_mem _ h')
    cases o with
    | resolveCheck w =>
      by_cases ht : soleOnCondition0_triggered P_ (cellWith w a) 0 = true
      · have hdeact : (Transition_deactivate TransitionId.cond0 (cellWith w a)).cond0_active
            = false := rfl
        simp [cond0Trace, ht, hdeact, cond0Trace_inactive P_ rest hrest]
      · rw [Bool.not_eq_true] at ht
        simp [cond0Trace, ht]
        exact ih a hrest
    | setTriggerCheck w =>
      simp only [cond0Trace]
      exact ih _ hrest

/-- C3: for every OnCondition whose guard is observed true at every
evaluation across the simulated steps, the condition fires at most once;
moreover once the latch is cleared (as firing does) it can never fire
again while the guard is only ever observed true, since set_trigger
rearms only on a false guard observation. -/
theorem oncondition_edge_triggered_at_most_once (P_ : Parameters_) (a : Bool)
    (obs : List CondObservation) (hg : ∀ o ∈ obs, P_.wmax < obsWsyn o) :
    (cond0Trace P_ a obs).2 ≤ 1 ∧ cond0Trace P_ false obs = (false, 0) :=
  ⟨cond0Trace_le_one P_ obs a hg, cond0Trace_inactive P_ obs hg⟩

/-- Witness for C3: four observations with wsyn = 1 > 0 = wmax, starting
armed: at most one firing, and none from the cleared latch. -/
theorem oncondition_edge_triggered_witness :
    (cond0Trace params0 true obsExC).2 ≤ 1 ∧ cond0Trace params0 false obsExC = (false, 0) := by
  have h := oncondition_edge_triggered_at_most_once params0 true obsExC
      (by norm_num [obsExC, obsWsyn, params0])
  exact h

/-- C5: a spike-event transition is received exactly when its per-step
queue is non-empty; its body consumes exactly the front element of the
queue (leaving the tail); and draining a queue of length N produces
exactly N firings that consume the queued values in arrival order,
leaving the queue empty. -/
theorem onevent_fifo_consumption (expf : ℚ → ℚ) (P_ : Parameters_) :
    (∀ c : Cell, soleOnpresynaptic_spikeEvent_received c = true ↔
        c.presynaptic_spike_events ≠ []) ∧
    (∀ c : Cell, soleOnpostsynaptic_spikeEvent_received c = true ↔
        c.postsynaptic_spike_events ≠ []) ∧
    (∀ c : Cell, (soleOnpresynaptic_spikeEvent_body expf P_ c).presynaptic_spike_events
        = c.presynaptic_spike_events.tail) ∧
    (∀ c : Cell, (soleOnpostsynaptic_spikeEvent_body expf P_ c).postsynaptic_spike_events
        = c.postsynaptic_spike_events.tail) ∧
    (∀ (c : Cell) (fuel : Nat), c.presynaptic_spike_events.length ≤ fuel →
      (drainPresynaptic expf P_ fuel c).1 = c.presynaptic_spike_events ∧
      (drainPresynaptic expf P_ fuel c).2.presynaptic_spike_events = []) := by
  refine ⟨?_, ?_, ?_, ?_, ?_⟩
  · intro c; simp [soleOnpresynaptic_spikeEvent_received]
  · intro c; simp [soleOnpostsynaptic_spikeEvent_received]
  · intro c; simp [soleOnpresynaptic_spikeEvent_body]
  · intro c; simp [soleOnpostsynaptic_spikeEvent_body]
  · intro c fuel
    induction fuel generalizing c with
    | zero =>
      intro hc
      have hnil : c.presynaptic_spike_events = [] :=
        List.eq_nil_of_length_eq_zero (Nat.le_zero.mp hc)
      simp [drainPresynaptic, hnil]
    | succ n ih =>
      intro hc
      rcases hl : c.presynaptic_spike_events with _ | ⟨w, rest⟩
      · simp [drainPresynaptic, soleOnpresynaptic_spikeEvent_received, hl]
      · have hrecv : soleOnpresynaptic_spikeEvent_received c = true := by
          simp [soleOnpresynaptic_spikeEvent_received, hl]
        have htail : (soleOnpresynaptic_spikeEvent_body expf P_ c).presynaptic_spike_events
            = rest := by
          simp [soleOnpresynaptic_spikeEvent_body, hl]
        have hlen : (soleOnpresynaptic_spikeEvent_body expf P_ c).presynaptic_spike_events.length
            ≤ n := by
          rw [htail]
          have := hc
          rw [hl] at this
          simpa using Nat.succ_le_succ_iff.mp (by simpa using this)
        have hrec := ih _ hlen
        rw [htail] at hrec
        simp [drainPresynaptic, hrecv, hl, hrec.1, hrec.2]

/-- Witness for C5: a queue of three events is drained in arrival order
by exactly three firings, leaving the queue empty. -/
theorem onevent_fifo_consumption_witness :
    (drainPresynaptic (fun x => x) params0 3 cellExB).1 = [1, 2, 3] ∧
    (drainPresynaptic (fun x => x) params0 3 cellExB).2.presynaptic_spike_events = [] := by
  have h := (onevent_fifo_consumption (fun x => x) params0).2.2.2.2 cellExB 3
      (by norm_num [cellExB, cell0])
  refine ⟨h.1.trans ?_, h.2⟩
  norm_num [cellExB, cell0]

/-- Helper for C1: running the resolution loop against a self-loop
transition that always fires at the recorded time `T`, from a counter
value `count ≤ 1000`, executes exactly `1000 - count` further transition
bodies and then throws with count 1001. -/
theorem selfLoop_ceiling_aux (T : ℚ) :
    ∀ (fuel n count : Nat), count ≤ 1000 → 1001 - count ≤ fuel →
      transitionResolutionLoop (alwaysSelfLoop T) fuel n T count =
        .raised (n + (1000 - count)) ⟨"StdpSongAbbott", 1001, T⟩ := by
  intro fuel
  induction fuel with
  | zero => intro n count hc hf; omega
  | succ m ih =>
    intro n count hc hf
    by_cases hmax : count = 1000
    · subst hmax
      have : (1000 : Nat) < 1000 + 1 := by omega
      simp [transitionResolutionLoop, alwaysSelfLoop, MAX_SIMULTANEOUS_TRANSITIONS, this]
    · have h1 : ¬ MAX_SIMULTANEOUS_TRANSITIONS < count + 1 := by
        simp [MAX_SIMULTANEOUS_TRANSITIONS]; omega
      have hstep : transitionResolutionLoop (alwaysSelfLoop T) (m + 1) n T count =
          transitionResolutionLoop (alwaysSelfLoop T) m (n + 1) T (count + 1) := by
        simp [transitionResolutionLoop, alwaysSelfLoop, h1]
      rw [hstep, ih (n + 1) (count + 1) (by omega) (by omega)]
      have : n + 1 + (1000 - (count + 1)) = n + (1000 - count) := by omega
      rw [this]

/-- C1: per iteration of the transition-resolution loop, when the
resolved transition's occurrence time equals the recorded `S_.t`, the
simultaneous-transition counter is incremented and the loop throws
ExceededMaximumSimultaneousTransitions — carrying the model name, the
counter and the time — exactly when the counter exceeds the ceiling of
1000 (otherwise the body runs and the loop continues); consequently a
self-loop transition that always fires at the recorded timestamp aborts
the run after exactly 1000 firings, the exception carrying the count at
which the ceiling was exceeded (1001) and the common timestamp. -/
theorem update_simultaneous_transition_ceiling :
    (∀ (σ : Type) (resolve : σ → Option (σ × ResolvedTransition σ)) (s s₁ : σ)
        (tr : ResolvedTransition σ) (S_t : ℚ) (count fuel : Nat),
      resolve s = some (s₁, tr) → tr.t_occ = S_t →
        transitionResolutionLoop resolve (fuel + 1) s S_t count =
          (if MAX_SIMULTANEOUS_TRANSITIONS < count + 1 then
            .raised s₁ ⟨"StdpSongAbbott", count + 1, S_t⟩
          else transitionResolutionLoop resolve fuel (tr.next s₁) S_t (count + 1))) ∧
    (∀ (T : ℚ) (fuel : Nat), 1001 ≤ fuel →
      transitionResolutionLoop (alwaysSelfLoop T) fuel 0 T 0 =
        .raised 1000 ⟨"StdpSongAbbott", 1001, T⟩) := by
  constructor
  · intro σ resolve s s₁ tr S_t count fuel hres ht
    simp [transitionResolutionLoop, hres, ht]
  · intro T fuel hf
    have h := selfLoop_ceiling_aux T fuel 0 0 (by omega) (by omega)
    simpa using h

/-- Witness for C1, both parts at concrete inputs: one iteration with
counter 0 continues into the loop body, and a 1001-fuel run from counter
0 aborts with the ceiling exception after 1000 firings. -/
theorem update_simultaneous_transition_ceiling_witness :
    (transitionResolutionLoop (alwaysSelfLoop 0) 1 0 0 0 =
      (if MAX_SIMULTANEOUS_TRANSITIONS < 0 + 1 then
        .raised 0 ⟨"StdpSongAbbott", 0 + 1, 0⟩
      else transitionResolutionLoop (alwaysSelfLoop 0) 0
        ((⟨0, fun m => m + 1⟩ : ResolvedTransition Nat).next 0) 0 (0 + 1))) ∧
    transitionResolutionLoop (alwaysSelfLoop 0) 1001 0 0 0 =
      .raised 1000 ⟨"StdpSongAbbott", 1001, 0⟩ :=
  ⟨update_simultaneous_transition_ceiling.1 Nat (alwaysSelfLoop 0) 0 0
      ⟨0, fun m => m + 1⟩ 0 0 0 rfl rfl,
   update_simultaneous_transition_ceiling.2 0 1001 (by omega)⟩

/-- All four time_occurred implementations return the end-of-step time. -/
theorem time_occurred_const (tid : TransitionId) (e : ℚ) : time_occurred tid e = e := by
  cases tid <;> rfl

/-- Helper: min_element never moves off the running best when no later
element is strictly smaller. -/
theorem minElementIdxAux_no_smaller (e : ℚ) :
    ∀ (l : List ℚ), (∀ x ∈ l, ¬ x < e) →
      ∀ (bestIdx cur : Nat), minElementIdxAux l e bestIdx cur = bestIdx := by
  intro l
  induction l with
  | nil => intro _ bi cur; rfl
  | cons x rest ih =>
    intro h bi cur
    have hx := h x (List.mem_cons_self _ _)
    rw [minElementIdxAux, if_neg hx]
    exact ih (fun y hy => h y (List.mem_cons_of_mem _ hy)) bi (cur + 1)

/-- Helper: on the constant list of occurrence times produced by this
model's transitions, min_element lands on index 0. -/
theorem minElementIdx_times_zero (e : ℚ) (l : List TransitionId) :
    minElementIdx (l.map (fun tid => time_occurred tid e)) = 0 := by
  cases l with
  | nil => rfl
  | cons a rest =>
    rw [List.map_cons, time_occurred_const, minElementIdx]
    apply minElementIdxAux_no_smaller
    intro x hx
    rcases List.mem_map.mp hx with ⟨tid, _, rfl⟩
    rw [time_occurred_const]
    exact lt_irrefl e

/-- Helper: find? returns the head when the predicate holds on every
element. -/
theorem find_head_of_all_true {α : Type} (p : α → Bool) (l : List α)
    (h : ∀ x ∈ l, p x = true) : l.find? p = l.head? := by
  cases l with
  | nil => rfl
  | cons a rest =>
    rw [List.find?_cons_of_pos _ (h a (List.mem_cons_self _ _))]
    rfl

/-- Helper: the selection block of Regime_::transition returns the head
of the occurred vector (all occurrence times being equal, the first
minimum is the first element). -/
theorem resolveTransitionChoice_eq_head (occ : List TransitionId) (e : ℚ) :
    resolveTransitionChoice occ e = occ.head? := by
  rcases occ with _ | ⟨a, rest⟩
  · rfl
  · rcases rest with _ | ⟨b, rest'⟩
    · rfl
    · rw [resolveTransitionChoice, minElementIdx_times_zero]
      simp

/-- Helper: the spec-level earliest-candidate selection also returns the
head of the occurred vector. -/
theorem resolveEarliestSpec_eq_head (P_ : Parameters_) (c : Cell) (e : ℚ) :
    resolveEarliestSpec P_ c e = (occurredList P_ c e).head? := by
  rw [resolveEarliestSpec]
  apply find_head_of_all_true
  intro x _
  rw [List.all_eq_true]
  intro u _
  rw [time_occurred_const, time_occurred_const]
  simp

/-- C2: Regime_::transition returns none exactly when no OnCondition is
armed-with-satisfied-guard and no OnEvent has a queued event; otherwise
it returns the candidate with the minimum time_occurred, ties broken by
position in the unified occurrence list (OnConditions in declaration
order, then OnEvents), agreeing with the spec-level selection; and its
only side effect is clearing the armed latch of the returned transition
when that transition is an OnCondition. -/
theorem regime_transition_resolves_earliest (P_ : Parameters_) (c : Cell) (e : ℚ)
    (res : Option TransitionId) (c' : Cell)
    (h : Regime_transition P_ c e = (res, c')) :
    (res = none ↔ occurredList P_ c e = []) ∧
    res = resolveEarliestSpec P_ c e ∧
    (∀ tid, res = some tid → tid ∈ occurredList P_ c e ∧
      ∀ u ∈ occurredList P_ c e, time_occurred tid e ≤ time_occurred u e) ∧
    (res = none → c' = c) ∧
    (∀ tid, res = some tid → c' = Transition_deactivate tid c) ∧
    c'.S = c.S ∧
    c'.presynaptic_spike_events = c.presynaptic_spike_events ∧
    c'.postsynaptic_spike_events = c.postsynaptic_spike_events ∧
    (res = some TransitionId.cond0 →
      c'.cond0_active = false ∧ c'.cond1_active = c.cond1_active) ∧
    (res = some TransitionId.cond1 →
      c'.cond1_active = false ∧ c'.cond0_active = c.cond0_active) ∧
    ((res = some TransitionId.preEvent ∨ res = some TransitionId.postEvent) → c' = c) := by
  rw [Regime_transition, resolveTransitionChoice_eq_head] at h
  rcases hocc : occurredList P_ c e with _ | ⟨a, t⟩
  · rw [hocc] at h
    simp only [List.head?_nil] at h
    rcases h with ⟨rfl, rfl⟩  -- hmm
    refine ⟨by simp, ?_, ?_, fun _ => rfl, ?_, rfl, rfl, rfl, ?_, ?_, ?_⟩
    · rw [resolveEarliestSpec_eq_head, hocc]; rfl
    · intro tid htid; exact absurd htid (by simp)
    · intro tid htid; exact absurd htid (by simp)
    · intro htid; exact absurd htid (by simp)
    · intro htid; exact absurd htid (by simp)
    · intro htid; rcases htid with htid | htid <;> exact absurd htid (by simp)
  · rw [hocc] at h
    simp only [List.head?_cons] at h
    rcases h with ⟨rfl, rfl⟩
    refine ⟨by simp [hocc], ?_, ?_, by simp, ?_, ?_, ?_, ?_, ?_, ?_, ?_⟩
    · rw [resolveEarliestSpec_eq_head, hocc]; rfl
    · intro tid htid
      rcases Option.some.injEq .. ▸ htid with rfl
      refine ⟨by simp [hocc], ?_⟩
      intro u _
      rw [time_occurred_const, time_occurred_const]
    · intro tid htid
      rcases Option.some.injEq .. ▸ htid with rfl
      rfl
    · cases a <;> rfl
    · cases a <;> rfl
    · cases a <;> rfl
    · intro htid
      rcases Option.some.injEq .. ▸ htid with rfl
      exact ⟨rfl, rfl⟩
    · intro htid
      rcases Option.some.injEq .. ▸ htid with rfl
      exact ⟨rfl, rfl⟩
    · intro htid
      rcases htid with htid | htid <;> (rcases Option.some.injEq .. ▸ htid with rfl; rfl)

/-- Witness for C2 at a concrete input: with soleOnCondition0 armed and
its guard satisfied and a presynaptic event pending (two simultaneous
candidates), the resolution returns soleOnCondition0 (first in the
unified occurrence list), clears its latch, and agrees with the
spec-level selection. -/
theorem regime_transition_resolves_earliest_witness :
    Regime_transition params0 cellExC 0 =
      (some TransitionId.cond0, { cellExC with cond0_active := false }) ∧
    resolveEarliestSpec params0 cellExC 0 = some TransitionId.cond0 := by
  have hev : Regime_transition params0 cellExC 0 =
      (some TransitionId.cond0, { cellExC with cond0_active := false }) := by
    norm_num [Regime_transition, resolveTransitionChoice, occurredList,
      soleOnCondition0_triggered, soleOnCondition1_triggered,
      soleOnpresynaptic_spikeEvent_received, soleOnpostsynaptic_spikeEvent_received,
      minElementIdx, minElementIdxAux, time_occurred, Transition_deactivate,
      cellExC, state0, params0]
  have h := regime_transition_resolves_earliest params0 cellExC 0
      (some TransitionId.cond0) { cellExC with cond0_active := false } hev
  exact ⟨hev, h.2.1.symm⟩

/-- C7: if any part of a set_status validation fails — the regime read,
the parameter validation, the state validation, or the parent-class
set_status — the committed parameter record and state are exactly the
pre-call ones, with the failure surfaced to the caller; a failing
parameter validation always fails the whole call; and a successful call
commits exactly the validated temporaries, requiring every part to have
succeeded. -/
theorem set_status_transactional (d : Dict) (init : Int) (arch : Except Unit Unit)
    (P_ : Parameters_) (S_ : State_) :
    (∀ e, set_status d init arch P_ S_ = .error e →
      set_status_committed d init arch P_ S_ = (P_, S_)) ∧
    ((∃ e, Parameters_set d P_ = .error e) →
      ∃ e, set_status d init arch P_ S_ = .error e) ∧
    (∀ p s, set_status d init arch P_ S_ = .ok (p, s) →
      Parameters_set d P_ = .ok p ∧ arch = .ok () ∧
      ∃ r, State_set d p r S_ = .ok s) := by
  refine ⟨?_, ?_, ?_⟩
  · intro e h
    simp [set_status_committed, h]
  · rintro ⟨e, hp⟩
    rw [set_status]
    rcases h0 : updateValue_long d CURRENT_REGIME init with e0 | v0
    · exact ⟨e0, by simp⟩
    · exact ⟨e, by simp [hp]⟩
  · intro p s h
    rw [set_status] at h
    rcases h0 : updateValue_long d CURRENT_REGIME init with e0 | v0 <;> rw [h0] at h <;>
      simp at h
    rcases h1 : Parameters_set d P_ with e1 | p1 <;> rw [h1] at h <;> simp at h
    rcases h2 : State_set d p1 (sanitizeRegimeIndex v0).toNat S_ with e2 | s2 <;>
      rw [h2] at h <;> simp at h
    rcases h3 : arch with e3 | u <;> rw [h3] at h <;> simp at h
    rcases h with ⟨rfl, rfl⟩
    exact ⟨rfl, rfl, (sanitizeRegimeIndex v0).toNat, h2⟩

/-- Witness for C7: a dictionary holding one valid value (tauLTP) and
one invalid value (aLTD) fails the whole set_status and leaves the
committed pair identical to the pre-update pair. -/
theorem set_status_transactional_witness :
    set_status dictBad 0 (.ok ()) params0 state0 = .error () ∧
    set_status_committed dictBad 0 (.ok ()) params0 state0 = (params0, state0) := by
  have herr : set_status dictBad 0 (.ok ()) params0 state0 = .error () := by
    simp [set_status, dictBad, updateValue_long, updateValue_double,
          Parameters_set, CURRENT_REGIME]
  exact ⟨herr, (set_status_transactional dictBad 0 (.ok ()) params0 state0).1 () herr⟩

/-- Helper: a successful State_set installs exactly the supplied
regime index as the current regime. -/
theorem State_set_ok_regime_eq (d : Dict) (p : Parameters_) (r : Nat) (s s' : State_)
    (h : State_set d p r s = .ok s') : s'.current_regime = r := by
  unfold State_set at h
  rcases h1 : updateValue_double d "tlast_post" s.tlast_post with _ | v1 <;> simp [h1] at h
  rcases h2 : updateValue_double d "tlast_pre" s.tlast_pre with _ | v2 <;> simp [h2] at h
  rcases h3 : updateValue_double d "deltaw" s.deltaw with _ | v3 <;> simp [h3] at h
  rcases h4 : updateValue_double d "M" s.M with _ | v4 <;> simp [h4] at h
  rcases h5 : updateValue_double d "P" s.P with _ | v5 <;> simp [h5] at h
  rcases h6 : updateValue_double d "wsyn" s.wsyn with _ | v6 <;> simp [h6] at h
  by_cases hr : r < NUM_REGIMES
  · rw [if_pos hr] at h
    simp only [Except.ok.injEq] at h
    rw [← h]
  · rw [if_neg hr] at h
    exact absurd h (by simp)

/-- C8: a set_status call that supplies a regime identity outside
[0, NUM_REGIMES_) silently clamps it to 0 rather than rejecting it, and
a successful restore then has regime 0 as the active regime. -/
theorem set_status_regime_clamped (d : Dict) (init : Int) (arch : Except Unit Unit)
    (P_ : Parameters_) (S_ : State_) (idx : Int)
    (hd : d.find CURRENT_REGIME = some (DictValue.int idx))
    (hout : idx < 0 ∨ (NUM_REGIMES : Int) ≤ idx) :
    sanitizeRegimeIndex idx = 0 ∧
    (∀ p s, set_status d init arch P_ S_ = .ok (p, s) → s.current_regime = 0) := by
  have hsan : sanitizeRegimeIndex idx = 0 := by rw [sanitizeRegimeIndex, if_pos hout]
  refine ⟨hsan, ?_⟩
  intro p s h
  rw [set_status] at h
  have hlong : updateValue_long d CURRENT_REGIME init = .ok idx := by
    rw [updateValue_long, hd]
  rw [hlong] at h
  simp only [except_bind_ok] at h
  rw [hsan] at h
  rcases h1 : Parameters_set d P_ with e1 | p1 <;> rw [h1] at h <;> simp at h
  rcases h2 : State_set d p1 (0 : Nat) S_ with e2 | s2 <;> rw [h2] at h <;> simp at h
  rcases h3 : arch with e3 | u <;> rw [h3] at h <;> simp at h
  rcases h with ⟨rfl, rfl⟩
  exact State_set_ok_regime_eq d p1 (0 : Nat) S_ s2 h2

/-- Witness for C8: restoring with regime identity 5 into the
single-regime instance commits with regime 0 active. -/
theorem set_status_regime_clamped_witness :
    sanitizeRegimeIndex 5 = 0 ∧
    set_status dictRegime5 7 (.ok ()) params0 state0 = .ok (params0, state0) ∧
    (set_status_committed dictRegime5 7 (.ok ()) params0 state0).2.current_regime = 0 := by
  have h := set_status_regime_clamped dictRegime5 7 (.ok ()) params0 state0 5
      (by simp [dictRegime5]) (by norm_num [NUM_REGIMES])
  have hok : set_status dictRegime5 7 (.ok ()) params0 state0 = .ok (params0, state0) := by
    simp [set_status, dictRegime5, updateValue_long, updateValue_double,
          Parameters_set, State_set, sanitizeRegimeIndex, CURRENT_REGIME,
          NUM_REGIMES, params0, state0, SOLE_REGIME]
  refine ⟨h.1, hok, ?_⟩
  have := h.2 params0 state0 hok
  simp [set_status_committed, hok, this]

/-- C6 (code evaluated at the failing input): update stamps
`S_.t = origin.get_ms()` for every lag and computes
`end_of_step_t = origin.get_ms() + lag * dt`.  For the single-lag call
(origin 0 ms, dt = 1/10 ms, lag 0) the post-loop stamp equals the
pre-loop stamp 0 — not start + dt = 1/10 as the step's end time would
require; and for lag 3 the post-loop stamp is origin + 3·dt = 3/10,
again not start + dt.  (The surrounding structure — start stamp before
the ODE step, end stamp after the loop followed by one more
set_triggers — is as described.) -/
theorem update_time_stamping_at_failing_input :
    update_lag (fun x => x) params0 0 (1/10) 0 [] [] 1 cell0 = .finished cell0 ∧
    (0 : ℚ) + 1/10 ≠ 0 ∧
    update_lag (fun x => x) params0 0 (1/10) 3 [] [] 1 cell0 =
      .finished { cell0 with S := { state0 with t := 3/10 } } ∧
    (3 : ℚ)/10 ≠ 0 + 1/10 := by
  refine ⟨?_, by norm_num, ?_, by norm_num⟩ <;>
    norm_num [update_lag, cellTransitionLoop, Regime_transition, resolveTransitionChoice,
      occurredList, soleOnCondition0_triggered, soleOnCondition1_triggered,
      soleOnpresynaptic_spikeEvent_received, soleOnpostsynaptic_spikeEvent_received,
      Regime_set_triggers, soleOnCondition0_set_trigger, soleOnCondition1_set_trigger,
      cell0, state0, params0]
